import Mathlib

/-!
Shallow embedding of `src/lambda/ip_monitor.py` (the `handler` function).

The handler reads the environment variable `VPC_ID` (outside its try block),
fetches the VPC record, the subnet list and the network-interface list from
EC2, computes per-subnet and VPC-level IP utilization figures, classifies
each subnet as public/private from its route tables, submits one
`put_metric_data` call to CloudWatch with all metric points, and returns a
`{statusCode, body}` dictionary.  Exceptions inside the try block are caught
and turned into a 500 result; the environment-variable read is outside the
try block, so a missing `VPC_ID` propagates.

External collaborators (EC2, CloudWatch, the environment) are modelled as
records of functions returning `Except String _`; Python numbers are
modelled as `Int` (machine-unbounded ints) and `ℚ` (the float divisions,
taken at exact precision).
-/

namespace IpMonitor

/-- A CIDR block, reduced to its prefix length; `ipaddress.IPv4Network`'s
`num_addresses` depends only on the prefix length (valid prefixes are 0–32,
already parsed by the provider before reaching this code). -/
structure Cidr where
  prefixLen : Nat
deriving DecidableEq, Repr

/-- `ipaddress.IPv4Network(cidr).num_addresses` = 2^(32 - prefix length). -/
def numAddresses (c : Cidr) : Nat := 2 ^ (32 - c.prefixLen)

/-- One record of `describe_vpcs`'s `Vpcs` list (only the field read). -/
structure VpcRec where
  cidrBlock : Cidr
deriving DecidableEq, Repr

/-- One record of `describe_subnets`'s `Subnets` list (only the fields read). -/
structure SubnetRec where
  subnetId : String
  cidrBlock : Cidr
  availableIpAddressCount : Nat
deriving DecidableEq, Repr

/-- One route of a route table: `DestinationCidrBlock` may be absent
(`route.get(...)`), `GatewayId` may be absent (`'GatewayId' in route`). -/
structure Route where
  destinationCidrBlock : Option String
  gatewayId : Option String
deriving DecidableEq, Repr

/-- One record of `describe_route_tables`'s `RouteTables` list. -/
structure RouteTable where
  routes : List Route
deriving DecidableEq, Repr

/-- The EC2 client, as the four lookups the handler performs; each may fail
with an exception message. -/
structure Ec2 where
  describeVpcs : String → Except String (List VpcRec)
  describeSubnets : String → Except String (List SubnetRec)
  describeNetworkInterfaces : String → Except String (List String)
  describeRouteTables : String → Except String (List RouteTable)

/-- One dimension of a CloudWatch metric point. -/
structure Dimension where
  name : String
  value : String
deriving DecidableEq, Repr

/-- One CloudWatch metric point. -/
structure Metric where
  metricName : String
  value : ℚ
  unit : String
  dimensions : List Dimension
deriving DecidableEq, Repr

/-- The CloudWatch client: `put_metric_data namespace data`, which may fail. -/
structure CloudWatch where
  putMetricData : String → List Metric → Except String Unit

/-- The `detail` section of an invocation event (fields named in the spec's
interface description; the handler never reads them). -/
structure EventDetail where
  requestParametersNetworkInterfaceId : Option String
  responseElementsNetworkInterfaceId : Option String
deriving DecidableEq, Repr

/-- An invocation event envelope (the handler never reads it). -/
structure Event where
  source : Option String
  detailType : Option String
  detail : Option EventDetail
deriving DecidableEq, Repr

/-- A per-subnet detail record (lines 46–53); `SubnetType` is added to the
dictionary later, in the metrics loop (line 139), hence an `Option`. -/
structure SubnetDetail where
  subnetId : String
  cidr : Cidr
  totalIPs : Int
  usedIPs : Int
  availableIPs : Int
  utilizationPercent : ℚ
  subnetType : Option String
deriving DecidableEq, Repr

/-- `(used / total) * 100 if total > 0 else 0` — the guarded division used at
line 52 (per subnet) and line 56 (VPC level). -/
def utilizationOf (used total : Int) : ℚ :=
  if 0 < total then ((used : ℚ) / (total : ℚ)) * 100 else 0

/-- Lines 39–53 for one subnet: capacity from the CIDR minus the 5 reserved
addresses, `subnet_used = subnet_total - available_ips` (no clamping), and the
guarded utilization percentage. -/
def subnetDetailOf (s : SubnetRec) : SubnetDetail :=
  let subnet_total : Int := (numAddresses s.cidrBlock : Int) - 5
  let subnet_used : Int := subnet_total - (s.availableIpAddressCount : Int)
  { subnetId := s.subnetId
    cidr := s.cidrBlock
    totalIPs := subnet_total
    usedIPs := subnet_used
    availableIPs := (s.availableIpAddressCount : Int)
    utilizationPercent := utilizationOf subnet_used subnet_total
    subnetType := none }

/-- The VPC-level figures of lines 21–56, computed before any metric is
shaped. -/
structure Computed where
  total_ips : Int
  used_ips : Int
  available_ips : Int
  utilization_percent : ℚ
  details : List SubnetDetail
deriving DecidableEq, Repr

/-- Lines 21–56: `total_ips` from the VPC's own CIDR minus 5, per-subnet
details, `used_ips` summed over subnets, `available_ips = total_ips -
used_ips` (no clamping), guarded utilization. -/
def computeUtilization (vpcCidr : Cidr) (subnets : List SubnetRec) : Computed :=
  let total_ips : Int := (numAddresses vpcCidr : Int) - 5
  let details := subnets.map subnetDetailOf
  let used_ips : Int := (details.map (fun d => d.usedIPs)).sum
  { total_ips := total_ips
    used_ips := used_ips
    available_ips := total_ips - used_ips
    utilization_percent := utilizationOf used_ips total_ips
    details := details }

/-- Line 84's per-route test: destination `0.0.0.0/0`, a `GatewayId` key
present, and its value starting with `igw-`. -/
def routeIsIgwDefault (r : Route) : Bool :=
  r.destinationCidrBlock == some "0.0.0.0/0" &&
    (match r.gatewayId with
     | some g => g.startsWith "igw-"
     | none => false)

/-- Lines 72–91: default `"private"`; the double loop with breaks sets
`"public"` exactly when some route table has a matching route (the breaks
only stop the search early); a `describe_route_tables` exception is swallowed,
leaving `"private"`. -/
def classifySubnet (ec2 : Ec2) (subnetId : String) : String :=
  match ec2.describeRouteTables subnetId with
  | .error _ => "private"
  | .ok tables =>
    if tables.any (fun rt => rt.routes.any routeIsIgwDefault) then "public"
    else "private"

/-- The three dimensions attached to every per-subnet metric point. -/
def subnetDims (vpcId subnetId subnetType : String) : List Dimension :=
  [⟨"VpcId", vpcId⟩, ⟨"SubnetId", subnetId⟩, ⟨"SubnetType", subnetType⟩]

/-- Lines 94–135: the four metric points of one subnet. -/
def subnetMetrics (vpcId : String) (d : SubnetDetail) (subnetType : String) :
    List Metric :=
  [⟨"SubnetTotalIPs", (d.totalIPs : ℚ), "Count", subnetDims vpcId d.subnetId subnetType⟩,
   ⟨"SubnetUsedIPs", (d.usedIPs : ℚ), "Count", subnetDims vpcId d.subnetId subnetType⟩,
   ⟨"SubnetAvailableIPs", (d.availableIPs : ℚ), "Count", subnetDims vpcId d.subnetId subnetType⟩,
   ⟨"SubnetIPUtilizationPercent", d.utilizationPercent, "Percent", subnetDims vpcId d.subnetId subnetType⟩]

/-- Lines 142–173: the five VPC-level aggregate metric points. -/
def vpcMetrics (vpcId : String) (c : Computed) (eniCount : Nat) : List Metric :=
  [⟨"TotalIPs", (c.total_ips : ℚ), "Count", [⟨"VpcId", vpcId⟩]⟩,
   ⟨"UsedIPs", (c.used_ips : ℚ), "Count", [⟨"VpcId", vpcId⟩]⟩,
   ⟨"AvailableIPs", (c.available_ips : ℚ), "Count", [⟨"VpcId", vpcId⟩]⟩,
   ⟨"IPUtilizationPercent", c.utilization_percent, "Percent", [⟨"VpcId", vpcId⟩]⟩,
   ⟨"ENICount", (eniCount : ℚ), "Count", [⟨"VpcId", vpcId⟩]⟩]

/-- Lines 66–174: all metric points of one run, in order — four points per
subnet (with its classified type), then the five aggregates; `typed` pairs
each subnet detail with its classified type. -/
def shapeMetrics (vpcId : String) (c : Computed)
    (typed : List (SubnetDetail × String)) (eniCount : Nat) : List Metric :=
  (typed.flatMap fun p => subnetMetrics vpcId p.1 p.2) ++ vpcMetrics vpcId c eniCount

/-- Round half to even at an integer, as Python's `round` ties are resolved
(modelled exactly on ℚ). -/
def roundHalfEven (x : ℚ) : Int :=
  let f : Int := ⌊x⌋
  if x - (f : ℚ) < 1/2 then f
  else if (1/2 : ℚ) < x - (f : ℚ) then f + 1
  else if f % 2 = 0 then f else f + 1

/-- Python's `round(x, 2)`, modelled at exact decimal precision. -/
def round2 (x : ℚ) : ℚ := (roundHalfEven (x * 100) : ℚ) / 100

/-- The JSON report of lines 183–193; the VPC-level percentage is rounded to
2 decimals here and only here. -/
structure Report where
  timestamp : String
  vpc_id : String
  vpc_cidr : Cidr
  total_ips : Int
  used_ips : Int
  available_ips : Int
  utilization_percent : ℚ
  eni_count : Nat
  subnet_details : List SubnetDetail
deriving DecidableEq, Repr

/-- Lines 183–193. -/
def buildReport (now vpcId : String) (vpcCidr : Cidr) (c : Computed)
    (eniCount : Nat) (finalDetails : List SubnetDetail) : Report :=
  { timestamp := now
    vpc_id := vpcId
    vpc_cidr := vpcCidr
    total_ips := c.total_ips
    used_ips := c.used_ips
    available_ips := c.available_ips
    utilization_percent := round2 c.utilization_percent
    eni_count := eniCount
    subnet_details := finalDetails }

/-- The handler's return value: the body is either the report (200) or an
error-message dictionary (500). -/
inductive Body where
  | report (r : Report)
  | error (msg : String)
deriving DecidableEq, Repr

/-- The `{statusCode, body}` dictionary the handler returns. -/
structure HandlerResult where
  statusCode : Nat
  body : Body
deriving DecidableEq, Repr

/-- The 500 result of lines 202–209. -/
def failResult (e : String) : HandlerResult :=
  { statusCode := 500, body := .error ("Error in IP monitoring: " ++ e) }

/-- Lines 176–200: the single `put_metric_data` call and the 200 return; the
batch is recorded as submitted whether or not the put succeeds, and a failing
put becomes a 500 result (caught by the surrounding try). -/
def submitAndReport (cw : CloudWatch) (now vpcId : String) (vpcCidr : Cidr)
    (c : Computed) (eniCount : Nat) (finalDetails : List SubnetDetail)
    (metrics : List Metric) : HandlerResult × List (List Metric) :=
  match cw.putMetricData "Custom/IPMonitoring" metrics with
  | .error e => (failResult e, [metrics])
  | .ok _ =>
    ({ statusCode := 200,
       body := .report (buildReport now vpcId vpcCidr c eniCount finalDetails) },
     [metrics])

/-- The try block, lines 16–209: any exception from an EC2 listing call, the
`Vpcs[0]` index, or `put_metric_data` is caught and becomes a 500 result.
Alongside the result we return the list of `put_metric_data` calls made
(each one a metric batch), to observe what was submitted to the sink. -/
def handlerTry (ec2 : Ec2) (cw : CloudWatch) (now vpcId : String) :
    HandlerResult × List (List Metric) :=
  match ec2.describeVpcs vpcId with
  | .error e => (failResult e, [])
  | .ok vpcs =>
    match vpcs.head? with
    | none => (failResult "list index out of range", [])
    | some vpc =>
      let vpcCidr := vpc.cidrBlock
      match ec2.describeSubnets vpcId with
      | .error e => (failResult e, [])
      | .ok subnets =>
        let c := computeUtilization vpcCidr subnets
        match ec2.describeNetworkInterfaces vpcId with
        | .error e => (failResult e, [])
        | .ok enis =>
          let eniCount := enis.length
          let typed := c.details.map (fun d => (d, classifySubnet ec2 d.subnetId))
          let metrics := shapeMetrics vpcId c typed eniCount
          let finalDetails := typed.map (fun p => { p.1 with subnetType := some p.2 })
          submitAndReport cw now vpcId vpcCidr c eniCount finalDetails metrics

/-- Lines 6–209: the whole handler.  `os.environ['VPC_ID']` is read before
the try block, so a missing variable raises a KeyError that propagates out of
the handler (the outer `Except.error`); everything else returns a structured
result together with the submitted metric batches.  The `event` and `now`
(wall clock) are explicit inputs; the handler never inspects `event`. -/
def handler (environ : String → Option String) (ec2 : Ec2) (cw : CloudWatch)
    (now : String) (event : Event) :
    Except String (HandlerResult × List (List Metric)) :=
  match environ "VPC_ID" with
  | none => .error "KeyError: VPC_ID"
  | some vpcId => .ok (handlerTry ec2 cw now vpcId)

/-! ### Concrete collaborators for counterexamples and witnesses -/

/-- A CloudWatch client whose submissions always succeed. -/
def cwOk : CloudWatch := ⟨fun _ _ => .ok ()⟩

/-- An environment providing `VPC_ID = "vpc-1"`. -/
def environOne : String → Option String := fun _ => some "vpc-1"

/-- An empty/manual trigger event. -/
def eventEmpty : Event := ⟨none, none, none⟩

/-- A CloudTrail interface-change event with a resolvable interface id. -/
def eventCloudTrail : Event :=
  ⟨some "aws.ec2", some "AWS API Call via CloudTrail", some ⟨some "eni-123", none⟩⟩

/-- An EC2 inventory with a `/16` VPC holding one fully used `/24` subnet. -/
def ec2One : Ec2 :=
  { describeVpcs := fun _ => .ok [⟨⟨16⟩⟩]
    describeSubnets := fun _ => .ok [⟨"subnet-a", ⟨24⟩, 0⟩]
    describeNetworkInterfaces := fun _ => .ok ["eni-1"]
    describeRouteTables := fun _ => .ok [] }

/-- An EC2 inventory with ten subnets (so a run shapes 10·4+5 = 45 points). -/
def ec2Ten : Ec2 :=
  { describeVpcs := fun _ => .ok [⟨⟨16⟩⟩]
    describeSubnets := fun _ => .ok
      [⟨"subnet-0", ⟨24⟩, 100⟩, ⟨"subnet-1", ⟨24⟩, 100⟩, ⟨"subnet-2", ⟨24⟩, 100⟩,
       ⟨"subnet-3", ⟨24⟩, 100⟩, ⟨"subnet-4", ⟨24⟩, 100⟩, ⟨"subnet-5", ⟨24⟩, 100⟩,
       ⟨"subnet-6", ⟨24⟩, 100⟩, ⟨"subnet-7", ⟨24⟩, 100⟩, ⟨"subnet-8", ⟨24⟩, 100⟩,
       ⟨"subnet-9", ⟨24⟩, 100⟩]
    describeNetworkInterfaces := fun _ => .ok ["eni-1", "eni-2"]
    describeRouteTables := fun _ => .ok [] }

/-- An EC2 client whose `describe_vpcs` call fails. -/
def ec2Fail : Ec2 :=
  { describeVpcs := fun _ => .error "boom"
    describeSubnets := fun _ => .ok []
    describeNetworkInterfaces := fun _ => .ok []
    describeRouteTables := fun _ => .ok [] }

/-- The metric batches submitted during a handler run (none when the
handler propagated an exception). -/
def callsOf (r : Except String (HandlerResult × List (List Metric))) :
    List (List Metric) :=
  match r with
  | .ok p => p.2
  | .error _ => []

instance : Inhabited Cidr := ⟨⟨0⟩⟩

instance : Inhabited Report :=
  ⟨{ timestamp := "", vpc_id := "", vpc_cidr := ⟨0⟩, total_ips := 0, used_ips := 0,
     available_ips := 0, utilization_percent := 0, eni_count := 0, subnet_details := [] }⟩

/-- The report produced by the happy-path run over `ec2One`. -/
def repOne : Report :=
  match (handlerTry ec2One cwOk "t" "vpc-1").1.body with
  | .report r => r
  | .error _ => default

/-! ### Claims -/

/-- C2 counterexample: a `/28` subnet has computed capacity 11; with a
provider-reported available count of 20 the code's used count is
`11 - 20 = -9`, not `max (11 - 20) 0 = 0` as the claim states — the code has
no clamping at zero. -/
theorem c2_used_count_counterexample :
    (subnetDetailOf ⟨"subnet-a", ⟨28⟩, 20⟩).usedIPs = -9 ∧
      (subnetDetailOf ⟨"subnet-a", ⟨28⟩, 20⟩).usedIPs ≠
        max ((subnetDetailOf ⟨"subnet-a", ⟨28⟩, 20⟩).totalIPs - 20) 0 := by
  constructor
  · decide
  · decide

/-- C2 amended: for every subnet the computed used count equals
`total_capacity - available_given` with no clamping, so it is negative
exactly when the provider-reported available count exceeds the computed
total capacity. -/
theorem c2_used_count_amended (s : SubnetRec) :
    (subnetDetailOf s).usedIPs =
      (subnetDetailOf s).totalIPs - (s.availableIpAddressCount : Int) := rfl

/-- C8: every subnet's total capacity is the number of addresses of its CIDR
range minus the fixed reservation of 5; a `/24` (256 addresses) yields 251. -/
theorem c8_total_capacity (s : SubnetRec) :
    (subnetDetailOf s).totalIPs = (numAddresses s.cidrBlock : Int) - 5 ∧
      numAddresses ⟨24⟩ = 256 ∧
      (subnetDetailOf ⟨"subnet-a", ⟨24⟩, 0⟩).totalIPs = 251 := by
  refine ⟨rfl, by decide, by decide⟩

/-- C9: the utilization division is guarded at both levels: the shared
guarded expression yields 0 at total 0, the per-subnet percentage (line 52)
and the network-level percentage (line 56) are both that guarded
expression applied to the respective used/total pair. -/
theorem c9_division_guarded (u : Int) (s : SubnetRec) (vpcCidr : Cidr)
    (subnets : List SubnetRec) :
    utilizationOf u 0 = 0 ∧
      (subnetDetailOf s).utilizationPercent =
        utilizationOf (subnetDetailOf s).usedIPs (subnetDetailOf s).totalIPs ∧
      (computeUtilization vpcCidr subnets).utilization_percent =
        utilizationOf (computeUtilization vpcCidr subnets).used_ips
          (computeUtilization vpcCidr subnets).total_ips := by
  refine ⟨by simp [utilizationOf], rfl, rfl⟩

/-- C1 counterexample: for a `/16` VPC with one `/24` subnet the network-level
total (65531, from the VPC's own CIDR) differs from the sum of the subnet
capacities (251) — total_ips is not the subnet-capacity sum. -/
theorem c1_total_ips_counterexample :
    (computeUtilization ⟨16⟩ [⟨"subnet-a", ⟨24⟩, 0⟩]).total_ips = 65531 ∧
      ((computeUtilization ⟨16⟩ [⟨"subnet-a", ⟨24⟩, 0⟩]).details.map
        (fun d => d.totalIPs)).sum = 251 ∧
      (computeUtilization ⟨16⟩ [⟨"subnet-a", ⟨24⟩, 0⟩]).total_ips ≠
        ((computeUtilization ⟨16⟩ [⟨"subnet-a", ⟨24⟩, 0⟩]).details.map
          (fun d => d.totalIPs)).sum := by
  refine ⟨by decide, by decide, by decide⟩

/-- C7 counterexample: a `/28` VPC (total 11) holding a fully used `/24`
subnet (used 251) gives `available_ips = 11 - 251 = -240`, not
`max (11 - 251) 0 = 0` — the network-level available count is not clamped
and can be negative. -/
theorem c7_available_counterexample :
    (computeUtilization ⟨28⟩ [⟨"subnet-a", ⟨24⟩, 0⟩]).available_ips = -240 ∧
      (computeUtilization ⟨28⟩ [⟨"subnet-a", ⟨24⟩, 0⟩]).available_ips ≠
        max ((computeUtilization ⟨28⟩ [⟨"subnet-a", ⟨24⟩, 0⟩]).total_ips -
          (computeUtilization ⟨28⟩ [⟨"subnet-a", ⟨24⟩, 0⟩]).used_ips) 0 := by
  refine ⟨by decide, by decide⟩

/-- Line 84's boolean test, as a proposition. -/
theorem routeIsIgwDefault_iff (r : Route) :
    routeIsIgwDefault r = true ↔
      r.destinationCidrBlock = some "0.0.0.0/0" ∧
        ∃ g, r.gatewayId = some g ∧ g.startsWith "igw-" = true := by
  unfold routeIsIgwDefault
  cases hg : r.gatewayId <;> simp [hg]

/-- C6: a subnet is classified `"public"` iff the route-table lookup succeeds
and some returned route table holds a route with destination `0.0.0.0/0` and
a gateway reference starting with `igw-`; in every other case — including a
failing lookup — the classification is `"private"`. -/
theorem c6_exposure_classification (ec2 : Ec2) (sid : String) :
    (classifySubnet ec2 sid = "public" ↔
      ∃ tables, ec2.describeRouteTables sid = .ok tables ∧
        ∃ rt ∈ tables, ∃ r ∈ rt.routes,
          r.destinationCidrBlock = some "0.0.0.0/0" ∧
            ∃ g, r.gatewayId = some g ∧ g.startsWith "igw-" = true) ∧
      (classifySubnet ec2 sid = "public" ∨ classifySubnet ec2 sid = "private") := by
  constructor
  · unfold classifySubnet
    cases h : ec2.describeRouteTables sid with
    | error e => simp [h]
    | ok tables =>
      constructor
      · intro hpub
        refine ⟨tables, rfl, ?_⟩
        by_cases hb : (tables.any fun rt => rt.routes.any routeIsIgwDefault) = true
        · simpa [List.any_eq_true, routeIsIgwDefault_iff] using hb
        · exact absurd hpub (by simp [hb])
      · rintro ⟨tables2, htab, hex⟩
        injection htab with h3
        subst h3
        have hb : (tables.any fun rt => rt.routes.any routeIsIgwDefault) = true := by
          simpa [List.any_eq_true, routeIsIgwDefault_iff] using hex
        simp [hb]
  · unfold classifySubnet
    cases h : ec2.describeRouteTables sid with
    | error e => exact Or.inr rfl
    | ok tables =>
      by_cases hb : (tables.any fun rt => rt.routes.any routeIsIgwDefault) = true
      · exact Or.inl (by simp [hb])
      · exact Or.inr (by simp [hb])

/-! ### Helper lemmas about the handler's structure -/

/-- The submit step yields either the 200 report result or a 500 error. -/
theorem submitAndReport_status (cw : CloudWatch) (now vpcId : String)
    (vpcCidr : Cidr) (c : Computed) (eniCount : Nat)
    (finalDetails : List SubnetDetail) (metrics : List Metric) :
    (submitAndReport cw now vpcId vpcCidr c eniCount finalDetails metrics).1.statusCode = 200 ∨
      ((submitAndReport cw now vpcId vpcCidr c eniCount finalDetails metrics).1.statusCode = 500 ∧
        ∃ m, (submitAndReport cw now vpcId vpcCidr c eniCount finalDetails metrics).1.body = .error m) := by
  unfold submitAndReport
  split <;> simp [failResult]

/-- When the submit step returns a report body, it is the built report. -/
theorem submitAndReport_body {cw : CloudWatch} {now vpcId : String}
    {vpcCidr : Cidr} {c : Computed} {eniCount : Nat}
    {finalDetails : List SubnetDetail} {metrics : List Metric} {rep : Report}
    (h : (submitAndReport cw now vpcId vpcCidr c eniCount finalDetails metrics).1.body = .report rep) :
    rep = buildReport now vpcId vpcCidr c eniCount finalDetails := by
  unfold submitAndReport at h
  split at h
  · simp [failResult] at h
  · injection h with h
    exact h.symm

/-- The submit step records exactly one batch: the full metric list. -/
theorem submitAndReport_calls {cw : CloudWatch} {now vpcId : String}
    {vpcCidr : Cidr} {c : Computed} {eniCount : Nat}
    {finalDetails : List SubnetDetail} {metrics : List Metric} :
    (submitAndReport cw now vpcId vpcCidr c eniCount finalDetails metrics).2 = [metrics] := by
  unfold submitAndReport
  split <;> rfl

/-- The try block always yields a 200 result or a 500 result carrying an
error-message body. -/
theorem handlerTry_status (ec2 : Ec2) (cw : CloudWatch) (now vpcId : String) :
    (handlerTry ec2 cw now vpcId).1.statusCode = 200 ∨
      ((handlerTry ec2 cw now vpcId).1.statusCode = 500 ∧
        ∃ m, (handlerTry ec2 cw now vpcId).1.body = .error m) := by
  unfold handlerTry
  repeat' split
  all_goals first
    | exact submitAndReport_status _ _ _ _ _ _ _ _
    | simp [failResult]

/-- A report body produced by the try block is the built report over the
fetched VPC CIDR, subnet list and interface count. -/
theorem handlerTry_report_shape {ec2 : Ec2} {cw : CloudWatch} {now vpcId : String}
    {rep : Report} (h : (handlerTry ec2 cw now vpcId).1.body = .report rep) :
    ∃ vpcCidr subnets eniCount,
      rep = buildReport now vpcId vpcCidr (computeUtilization vpcCidr subnets) eniCount
        (((computeUtilization vpcCidr subnets).details.map
          (fun d => (d, classifySubnet ec2 d.subnetId))).map
          (fun p => { p.1 with subnetType := some p.2 })) := by
  unfold handlerTry at h
  repeat' split at h
  all_goals first
    | exact ⟨_, _, _, submitAndReport_body h⟩
    | simp [failResult] at h

/-- When one of the three listing calls fails, the try block yields a 500
result without having submitted anything. -/
theorem handlerTry_fail_no_calls (ec2 : Ec2) (cw : CloudWatch) (now vpcId : String)
    (hfail : (∃ err, ec2.describeVpcs vpcId = .error err) ∨
      (∃ err, ec2.describeSubnets vpcId = .error err) ∨
      (∃ err, ec2.describeNetworkInterfaces vpcId = .error err)) :
    (handlerTry ec2 cw now vpcId).1.statusCode = 500 ∧
      (handlerTry ec2 cw now vpcId).2 = [] := by
  rcases hfail with ⟨err, hfl⟩ | ⟨err, hfl⟩ | ⟨err, hfl⟩
  · simp [handlerTry, hfl, failResult]
  · cases hv : ec2.describeVpcs vpcId with
    | error e => simp [handlerTry, hv, failResult]
    | ok vpcs =>
      cases hh : vpcs.head? with
      | none => simp [handlerTry, hv, hh, failResult]
      | some vpc => simp [handlerTry, hv, hh, hfl, failResult]
  · cases hv : ec2.describeVpcs vpcId with
    | error e => simp [handlerTry, hv, failResult]
    | ok vpcs =>
      cases hh : vpcs.head? with
      | none => simp [handlerTry, hv, hh, failResult]
      | some vpc =>
        cases hs : ec2.describeSubnets vpcId with
        | error e => simp [handlerTry, hv, hh, hs, failResult]
        | ok subnets => simp [handlerTry, hv, hh, hs, hfl, failResult]

/-- C1 amended: every report the handler produces carries
`total_ips = num_addresses(vpc_cidr) - 5`, computed from the network's own
address range (not from the sum of subnet capacities). -/
theorem c1_total_ips_amended (ec2 : Ec2) (cw : CloudWatch) (now vpcId : String)
    (rep : Report) (h : (handlerTry ec2 cw now vpcId).1.body = .report rep) :
    rep.total_ips = (numAddresses rep.vpc_cidr : Int) - 5 := by
  obtain ⟨vpcCidr, subnets, eniCount, hrep⟩ := handlerTry_report_shape h
  subst hrep
  rfl

/-- Witness for `c1_total_ips_amended` at the concrete `ec2One` run. -/
theorem c1_total_ips_amended_witness :
    (handlerTry ec2One cwOk "t" "vpc-1").1.body = .report repOne ∧
      repOne.total_ips = (numAddresses repOne.vpc_cidr : Int) - 5 :=
  ⟨rfl, c1_total_ips_amended ec2One cwOk "t" "vpc-1" repOne rfl⟩

/-- C7 amended: every report the handler produces carries
`available_ips = total_ips - used_ips` with no clamping at zero (negative
when used exceeds total), and `utilization_percent` equal to the guarded
full-precision ratio rounded to 2 decimals only in the report. -/
theorem c7_available_amended (ec2 : Ec2) (cw : CloudWatch) (now vpcId : String)
    (rep : Report) (h : (handlerTry ec2 cw now vpcId).1.body = .report rep) :
    rep.available_ips = rep.total_ips - rep.used_ips ∧
      rep.utilization_percent = round2 (utilizationOf rep.used_ips rep.total_ips) := by
  obtain ⟨vpcCidr, subnets, eniCount, hrep⟩ := handlerTry_report_shape h
  subst hrep
  exact ⟨rfl, rfl⟩

/-- Witness for `c7_available_amended` at the concrete `ec2One` run. -/
theorem c7_available_amended_witness :
    (handlerTry ec2One cwOk "t" "vpc-1").1.body = .report repOne ∧
      (repOne.available_ips = repOne.total_ips - repOne.used_ips ∧
        repOne.utilization_percent = round2 (utilizationOf repOne.used_ips repOne.total_ips)) :=
  ⟨rfl, c7_available_amended ec2One cwOk "t" "vpc-1" repOne rfl⟩

/-- C3 counterexample: with the `VPC_ID` environment variable absent, the
handler raises a KeyError before its try block — the invocation does not
return a structured result. -/
theorem c3_missing_config_counterexample :
    handler (fun _ => none) ec2One cwOk "t" eventEmpty = .error "KeyError: VPC_ID" := rfl

/-- C3 amended: once the `VPC_ID` environment variable is present, the
handler never propagates an exception, whatever the providers do: it returns
a structured result whose status is 200 on success or 500 with an
error-message body on failure.  (A missing `VPC_ID` is read before the try
block and still propagates.) -/
theorem c3_no_propagation_amended (environ : String → Option String) (ec2 : Ec2)
    (cw : CloudWatch) (now : String) (e : Event) (vpcId : String)
    (h : environ "VPC_ID" = some vpcId) :
    ∃ res calls, handler environ ec2 cw now e = .ok (res, calls) ∧
      (res.statusCode = 200 ∨ (res.statusCode = 500 ∧ ∃ m, res.body = .error m)) := by
  refine ⟨(handlerTry ec2 cw now vpcId).1, (handlerTry ec2 cw now vpcId).2, ?_, ?_⟩
  · simp [handler, h]
  · exact handlerTry_status ec2 cw now vpcId

/-- Witness for `c3_no_propagation_amended` at a concrete environment. -/
theorem c3_no_propagation_amended_witness :
    environOne "VPC_ID" = some "vpc-1" ∧
      ∃ res calls, handler environOne ec2One cwOk "t" eventEmpty = .ok (res, calls) ∧
        (res.statusCode = 200 ∨ (res.statusCode = 500 ∧ ∃ m, res.body = .error m)) :=
  ⟨rfl, c3_no_propagation_amended environOne ec2One cwOk "t" eventEmpty "vpc-1" rfl⟩

/-- C4 counterexample: on a CloudTrail envelope from `aws.ec2` carrying a
resolvable network-interface identifier, the handler behaves identically to
an empty trigger — there is no `single_interface_event` mode and no
owning-network resolution. -/
theorem c4_trigger_counterexample :
    eventCloudTrail.source = some "aws.ec2" ∧
      eventCloudTrail.detailType = some "AWS API Call via CloudTrail" ∧
      (eventCloudTrail.detail.map fun d => d.requestParametersNetworkInterfaceId) =
        some (some "eni-123") ∧
      handler environOne ec2One cwOk "t" eventCloudTrail =
        handler environOne ec2One cwOk "t" eventEmpty :=
  ⟨rfl, rfl, rfl, rfl⟩

/-- C4 amended: the handler never inspects the invocation payload — its
behaviour is the same for every event, always computing the single network
named by the `VPC_ID` environment variable; no trigger mode exists. -/
theorem c4_trigger_amended (environ : String → Option String) (ec2 : Ec2)
    (cw : CloudWatch) (now : String) (e1 e2 : Event) :
    handler environ ec2 cw now e1 = handler environ ec2 cw now e2 := rfl

/-- C5 counterexample: a run shaping 45 metric points submits them as one
45-point `put_metric_data` call, not as batches of sizes 20, 20 and 5. -/
theorem c5_batching_counterexample :
    ((callsOf (handler environOne ec2Ten cwOk "t" eventEmpty)).map List.length = [45]) ∧
      [45] ≠ ([20, 20, 5] : List Nat) :=
  ⟨rfl, by decide⟩

/-- C5 amended: no batching exists — the handler submits at most one
`put_metric_data` call, and when it submits, the single call carries the
entire shaped metric list, whatever its length. -/
theorem c5_batching_amended (ec2 : Ec2) (cw : CloudWatch) (now vpcId : String) :
    (handlerTry ec2 cw now vpcId).2 = [] ∨
      ∃ c typed eniCount,
        (handlerTry ec2 cw now vpcId).2 = [shapeMetrics vpcId c typed eniCount] := by
  unfold handlerTry
  repeat' split
  all_goals first
    | exact Or.inl rfl
    | exact Or.inr ⟨_, _, _, submitAndReport_calls⟩

/-- C10: if any of the three non-routing inventory lookups fails, the handler
returns the 500 result with an error body and submits no metric batch at
all. -/
theorem c10_no_metrics_on_lookup_failure (environ : String → Option String)
    (ec2 : Ec2) (cw : CloudWatch) (now : String) (e : Event) (vpcId : String)
    (h : environ "VPC_ID" = some vpcId)
    (hfail : (∃ err, ec2.describeVpcs vpcId = .error err) ∨
      (∃ err, ec2.describeSubnets vpcId = .error err) ∨
      (∃ err, ec2.describeNetworkInterfaces vpcId = .error err)) :
    ∃ res, handler environ ec2 cw now e = .ok (res, []) ∧
      res.statusCode = 500 ∧ ∃ m, res.body = .error m := by
  have h1 := handlerTry_fail_no_calls ec2 cw now vpcId hfail
  have h2 := handlerTry_status ec2 cw now vpcId
  refine ⟨(handlerTry ec2 cw now vpcId).1, ?_, h1.1, ?_⟩
  · simp only [handler, h]
    rw [← h1.2]
  · rcases h2 with h200 | ⟨_, hm⟩
    · simp [h1.1] at h200
    · exact hm

/-- Witness for `c10_no_metrics_on_lookup_failure` with a failing
`describe_vpcs` call. -/
theorem c10_no_metrics_on_lookup_failure_witness :
    (environOne "VPC_ID" = some "vpc-1" ∧
      ∃ err, ec2Fail.describeVpcs "vpc-1" = .error err) ∧
      ∃ res, handler environOne ec2Fail cwOk "t" eventEmpty = .ok (res, []) ∧
        res.statusCode = 500 ∧ ∃ m, res.body = .error m :=
  ⟨⟨rfl, ⟨"boom", rfl⟩⟩,
    c10_no_metrics_on_lookup_failure environOne ec2Fail cwOk "t" eventEmpty "vpc-1"
      rfl (Or.inl ⟨"boom", rfl⟩)⟩

end IpMonitor
